import Mathlib

/-
Verification development for the LingShu channel-processing backend.

The Python source is shallowly embedded:
  - Python values are modelled by the inductive type PyVal (None, bool, int,
    str, list, dict); Python dicts with string keys are association lists.
  - Python exec of a user script is modelled by an abstract environment
    ex : Exec mapping a script string and the initial local-variable dict to
    either the final local-variable dict or a raised exception text.
  - Exceptions raised while sending to a destination are modelled by a
    parameter raises : Nat -> Option String giving, per destination index,
    whether the send raises and with which text.
  - The persistence port (ChannelRepository over a Session) is modelled by an
    explicit state RepoState, a list of stored channels; the service methods
    return the possibly-updated state alongside their Except result.
-/

namespace LingShu

/-- Python runtime values, as far as the pipeline inspects them. -/
inductive PyVal where
  | none
  | bool (b : Bool)
  | int (n : Int)
  | str (s : String)
  | list (xs : List PyVal)
  | dict (entries : List (String × PyVal))


/-- A Python dict with string keys (association list, first binding wins). -/
abbrev RawDict := List (String × PyVal)

/-- d.get(k): the value bound to key k, if present. -/
def RawDict.get (d : RawDict) (k : String) : Option PyVal :=
  (List.find? (fun p => p.1 = k) d).map (fun p => p.2)

/-- Python truthiness of a value (bool(v)). -/
def PyVal.truthy : PyVal → Bool
  | .none => false
  | .bool b => b
  | .int n => n != 0
  | .str s => s != ""
  | .list xs => !xs.isEmpty
  | .dict es => !es.isEmpty

/-- Outcome of running exec(script, {}, local_vars): either the final
local-variable dict, or a raised exception rendered as str(e). -/
inductive ExecResult where
  | ok (local_vars : RawDict)
  | raised (error : String)


/-- Abstract semantics of the Python exec builtin: script text plus initial
local variables to the result. The pipeline treats scripts as opaque, so all
theorems are parametric in this environment. -/
abbrev Exec := String → RawDict → ExecResult

/-- SourceConfigType: the typed variants HTTPSourceConfig and TCPSourceConfig,
plus the raw-dict case that validate_json_fields leaves untouched for unknown
type tags (and that SQLModel table instantiation produces, per the tests). -/
inductive SourceConfig where
  | http (path : String) (method : String)
  | tcp (port : Int) (host : String) (use_mllp : Bool)
  | raw (d : RawDict)


/-- FilterConfigType: PythonScriptFilterConfig, or an unconverted raw entry. -/
inductive FilterConfig where
  | python_script (script : String)
  | raw (d : RawDict)


/-- TransformerConfigType: PythonScriptTransformerConfig, or a raw entry. -/
inductive TransformerConfig where
  | python_script (script : String)
  | raw (d : RawDict)


/-- DestinationConfigType: HTTPDestinationConfig, TCPDestinationConfig, or an
unconverted raw entry. Headers are kept as a raw dict; they are never
inspected by the pipeline. -/
inductive DestinationConfig where
  | http (url : String) (method : String) (headers : Option RawDict)
  | tcp (host : String) (port : Int) (use_mllp : Bool)
  | raw (d : RawDict)


/-- ChannelModel (app.domain.models.channel). -/
structure ChannelModel where
  id : Option String := none
  name : String
  description : Option String := none
  enabled : Bool := true
  source : SourceConfig
  filters : Option (List FilterConfig) := none
  transformers : Option (List TransformerConfig) := none
  destinations : List DestinationConfig


/-
ChannelProcessor (app.application.channel_processor).
-/

/-- Result dict of _apply_filters when a script leaves _passed unset or falsy. -/
def filtered_result : RawDict :=
  [("status", .str "filtered"), ("message", .str "Message filtered out.")]

/-- Result dict of _apply_filters when a filter script raises e. -/
def filter_error_result (e : String) : RawDict :=
  [("status", .str "error"), ("message", .str ("Filter script error: " ++ e))]

/-- Result dict of _apply_transformers when a transformer script raises e. -/
def transformer_error_result (e : String) : RawDict :=
  [("status", .str "error"), ("message", .str ("Transformer script error: " ++ e))]

/-- The for-loop body of ChannelProcessor._apply_filters. Entries that are not
PythonScriptFilterConfig instances are skipped (continue). For a script entry,
local_vars starts as a dict binding message and _passed = False; after exec,
a falsy or absent _passed returns the filtered dict, otherwise the loop
continues with the (possibly rebound) message local. Returning none models
the implicit Python return of None when the loop finishes. -/
def apply_filters_loop (ex : Exec) (fs : List FilterConfig) (message : PyVal) :
    Option RawDict :=
  match fs with
  | [] => none
  | filter_config :: rest =>
    match filter_config with
    | .raw _ => apply_filters_loop ex rest message
    | .python_script script =>
      let local_vars : RawDict := [("message", message), ("_passed", .bool false)]
      match ex script local_vars with
      | .raised e => some (filter_error_result e)
      | .ok lv =>
        if !PyVal.truthy ((RawDict.get lv "_passed").getD (.bool false)) then
          some filtered_result
        else
          apply_filters_loop ex rest ((RawDict.get lv "message").getD message)

/-- ChannelProcessor._apply_filters. A falsy filters field (None or the empty
list) returns None immediately. -/
def apply_filters (ex : Exec) (filters : Option (List FilterConfig))
    (message : PyVal) : Option RawDict :=
  match filters with
  | Option.none => none
  | some fs => if fs.isEmpty then none else apply_filters_loop ex fs message

/-- The for-loop body of ChannelProcessor._apply_transformers. local_vars
starts with message and _transformed_message = None, so after a script that
assigns nothing the key is still present with value None: the membership test
succeeds and the loop continues with message = None (the warning branch that
would leave the message unchanged needs the key to have been deleted). -/
def apply_transformers_loop (ex : Exec) (ts : List TransformerConfig)
    (message : PyVal) : Option RawDict :=
  match ts with
  | [] => none
  | transformer_config :: rest =>
    match transformer_config with
    | .raw _ => apply_transformers_loop ex rest message
    | .python_script script =>
      let local_vars : RawDict :=
        [("message", message), ("_transformed_message", PyVal.none)]
      match ex script local_vars with
      | .raised e => some (transformer_error_result e)
      | .ok lv =>
        match RawDict.get lv "_transformed_message" with
        | some v => apply_transformers_loop ex rest v
        | Option.none => apply_transformers_loop ex rest message

/-- ChannelProcessor._apply_transformers. -/
def apply_transformers (ex : Exec) (transformers : Option (List TransformerConfig))
    (message : PyVal) : Option RawDict :=
  match transformers with
  | Option.none => none
  | some ts => if ts.isEmpty then none else apply_transformers_loop ex ts message

/-- ChannelProcessor._get_destination_type. Typed configs expose their type
attribute; raw dicts fall back to get with default unknown. -/
def get_destination_type (destination_config : DestinationConfig) : PyVal :=
  match destination_config with
  | .http _ _ _ => .str "http"
  | .tcp _ _ _ => .str "tcp"
  | .raw d => (RawDict.get d "type").getD (.str "unknown")

/-- ChannelProcessor._send_to_fallback_destination, restricted to raw dicts
(the only untyped shape the repository produces; the hasattr branches for
non-dict objects are unreachable for dict configs). -/
def send_to_fallback_destination (d : RawDict) (_message : PyVal) : RawDict :=
  match (RawDict.get d "type").getD (.str "unknown") with
  | .str t =>
    if t = "http" then
      [("destination_type", .str "http"), ("status", .str "sent"),
       ("url", (RawDict.get d "url").getD .none)]
    else if t = "tcp" then
      [("destination_type", .str "tcp"), ("status", .str "sent"),
       ("host", (RawDict.get d "host").getD .none),
       ("port", (RawDict.get d "port").getD .none)]
    else
      [("destination_type",
        if PyVal.truthy (.str t) then .str t else .str "unknown"),
       ("status", .str "skipped")]
  | t =>
    [("destination_type", if PyVal.truthy t then t else .str "unknown"),
     ("status", .str "skipped")]

/-- ChannelProcessor._send_to_single_destination together with the two typed
send helpers _send_to_http_destination and _send_to_tcp_destination (delivery
is simulated: the helpers only log and build the outcome dict). -/
def send_to_single_destination (destination_config : DestinationConfig)
    (message : PyVal) : RawDict :=
  match destination_config with
  | .http url _ _ =>
    [("destination_type", .str "http"), ("status", .str "sent"), ("url", .str url)]
  | .tcp host port _ =>
    [("destination_type", .str "tcp"), ("status", .str "sent"),
     ("host", .str host), ("port", .int port)]
  | .raw d => send_to_fallback_destination d message

/-- The enumerate loop of ChannelProcessor._dispatch_to_destinations, carrying
the running index i. raises models an exception thrown while sending to the
destination at a given absolute index: it is caught there and converted to an
error entry, mirroring the per-destination try/except. -/
def dispatch_loop (raises : Nat → Option String) (i : Nat)
    (ds : List DestinationConfig) (message : PyVal) : List RawDict :=
  match ds with
  | [] => []
  | destination_config :: rest =>
    (match raises i with
     | some e =>
       [("destination_type", get_destination_type destination_config),
        ("status", .str "error"), ("error", .str e)]
     | Option.none => send_to_single_destination destination_config message)
    :: dispatch_loop raises (i + 1) rest message

/-- ChannelProcessor._dispatch_to_destinations. -/
def dispatch_to_destinations (destinations : List DestinationConfig)
    (message : PyVal) (raises : Nat → Option String) : List RawDict :=
  dispatch_loop raises 0 destinations message

/-- ChannelProcessor.process_message. Faithful to the source, including the
assignments current_message = filter_result and current_message =
transformer_result that run after the is-not-None early returns: in both spots
the helper returned None, so current_message is rebound to None. -/
def process_message (ex : Exec) (channel : ChannelModel) (message : PyVal)
    (raises : Nat → Option String) : RawDict :=
  let current_message := message
  let filter_result := apply_filters ex channel.filters current_message
  match filter_result with
  | some r => r
  | Option.none =>
    let current_message := PyVal.none
    let transformer_result := apply_transformers ex channel.transformers current_message
    match transformer_result with
    | some r => r
    | Option.none =>
      let current_message := PyVal.none
      let results := dispatch_to_destinations channel.destinations current_message raises
      [("status", .str "success"),
       ("processed_message", current_message),
       ("destination_results", .list (results.map PyVal.dict))]

/-
ChannelModel.validate_json_fields (app.domain.models.channel) and the
pydantic variant constructors it calls. A pydantic constructor failure
(missing or ill-typed required field) is modelled as Except.error with the
message text; note this is a pydantic ValidationError, not a dedicated
configuration error type, and the repository defines no ConfigurationError.
-/

/-- HTTPSourceConfig(**d): path is required, method must be one of the four
allowed literals. -/
def http_source_from_dict (d : RawDict) : Except String SourceConfig :=
  match RawDict.get d "path", RawDict.get d "method" with
  | some (.str path), some (.str method) =>
    if method = "GET" || method = "POST" || method = "PUT" || method = "DELETE" then
      .ok (.http path method)
    else .error "validation error: method"
  | _, _ => .error "validation error: HTTPSourceConfig fields"

/-- TCPSourceConfig(**d): port required, host defaults to 0.0.0.0, use_mllp
defaults to False. -/
def tcp_source_from_dict (d : RawDict) : Except String SourceConfig :=
  match RawDict.get d "port" with
  | some (.int port) =>
    let host := match RawDict.get d "host" with
      | some (.str h) => h
      | _ => "0.0.0.0"
    let use_mllp := match RawDict.get d "use_mllp" with
      | some (.bool b) => b
      | _ => false
    .ok (.tcp port host use_mllp)
  | _ => .error "validation error: TCPSourceConfig fields"

/-- PythonScriptFilterConfig(**d): script is required. -/
def python_script_filter_from_dict (d : RawDict) : Except String FilterConfig :=
  match RawDict.get d "script" with
  | some (.str script) => .ok (.python_script script)
  | _ => .error "validation error: PythonScriptFilterConfig fields"

/-- PythonScriptTransformerConfig(**d): script is required. -/
def python_script_transformer_from_dict (d : RawDict) :
    Except String TransformerConfig :=
  match RawDict.get d "script" with
  | some (.str script) => .ok (.python_script script)
  | _ => .error "validation error: PythonScriptTransformerConfig fields"

/-- HTTPDestinationConfig(**d): url required, method defaults to POST,
headers optional. -/
def http_destination_from_dict (d : RawDict) : Except String DestinationConfig :=
  match RawDict.get d "url" with
  | some (.str url) =>
    let headers := match RawDict.get d "headers" with
      | some (.dict hs) => some hs
      | _ => Option.none
    match RawDict.get d "method" with
    | Option.none => .ok (.http url "POST" headers)
    | some (.str method) =>
      if method = "GET" || method = "POST" || method = "PUT" || method = "DELETE" then
        .ok (.http url method headers)
      else .error "validation error: method"
    | some _ => .error "validation error: method"
  | _ => .error "validation error: HTTPDestinationConfig fields"

/-- TCPDestinationConfig(**d): host and port required, use_mllp defaults to
False. -/
def tcp_destination_from_dict (d : RawDict) : Except String DestinationConfig :=
  match RawDict.get d "host", RawDict.get d "port" with
  | some (.str host), some (.int port) =>
    let use_mllp := match RawDict.get d "use_mllp" with
      | some (.bool b) => b
      | _ => false
    .ok (.tcp host port use_mllp)
  | _, _ => .error "validation error: TCPDestinationConfig fields"

/-- The source branch of validate_json_fields: a raw dict is converted when
its type tag is http or tcp, and otherwise left exactly as it was. -/
def convert_source (s : SourceConfig) : Except String SourceConfig :=
  match s with
  | .raw d =>
    match RawDict.get d "type" with
    | some (.str t) =>
      if t = "http" then http_source_from_dict d
      else if t = "tcp" then tcp_source_from_dict d
      else .ok (.raw d)
    | _ => .ok (.raw d)
  | other => .ok other

/-- The filters loop of validate_json_fields: only the python_script tag is
converted; any other raw entry is appended unchanged. -/
def convert_filter (f : FilterConfig) : Except String FilterConfig :=
  match f with
  | .raw d =>
    match RawDict.get d "type" with
    | some (.str t) =>
      if t = "python_script" then python_script_filter_from_dict d
      else .ok (.raw d)
    | _ => .ok (.raw d)
  | other => .ok other

/-- The transformers loop of validate_json_fields. -/
def convert_transformer (t : TransformerConfig) : Except String TransformerConfig :=
  match t with
  | .raw d =>
    match RawDict.get d "type" with
    | some (.str ty) =>
      if ty = "python_script" then python_script_transformer_from_dict d
      else .ok (.raw d)
    | _ => .ok (.raw d)
  | other => .ok other

/-- The destinations loop of validate_json_fields: http and tcp tags are
converted; a missing or unknown tag leaves the raw entry in place. -/
def convert_destination (dc : DestinationConfig) : Except String DestinationConfig :=
  match dc with
  | .raw d =>
    match RawDict.get d "type" with
    | some (.str t) =>
      if t = "http" then http_destination_from_dict d
      else if t = "tcp" then tcp_destination_from_dict d
      else .ok (.raw d)
    | _ => .ok (.raw d)
  | other => .ok other

/-- ChannelModel.validate_json_fields. Falsy filters/transformers/destinations
(None or empty list) skip their conversion loop. -/
def validate_json_fields (c : ChannelModel) : Except String ChannelModel := do
  let source ← convert_source c.source
  let filters ←
    match c.filters with
    | Option.none => pure Option.none
    | some fs =>
      if fs.isEmpty then pure (some fs)
      else (fs.mapM convert_filter).map some
  let transformers ←
    match c.transformers with
    | Option.none => pure Option.none
    | some ts =>
      if ts.isEmpty then pure (some ts)
      else (ts.mapM convert_transformer).map some
  let destinations ←
    if c.destinations.isEmpty then pure c.destinations
    else c.destinations.mapM convert_destination
  pure { c with
    source := source, filters := filters,
    transformers := transformers, destinations := destinations }

/-
ChannelRepository (app.domain.repositories.channel_repository) over an
explicit state, and the domain exceptions
(app.domain.exceptions.channel_exceptions).
-/

/-- The domain exceptions raised by ChannelServiceImpl. -/
inductive ChannelError where
  | not_found (channel_id : String)
  | already_exists (channel_id : String)
  | invalid_data (message : String)
  | validation (field : String) (message : String)
  | operation_failed (message : String)

/-- The persistent store: the rows of the channel table. -/
structure RepoState where
  channels : List ChannelModel

/-- ChannelRepository.get_by_id: primary-key lookup. -/
def RepoState.get_by_id (repo : RepoState) (channel_id : String) :
    Option ChannelModel :=
  repo.channels.find? (fun c => c.id = some channel_id)

/-- ChannelRepository.add: inserts the row and returns the stored channel.
The Python body rebuilds the model from model_dump before session.add; for a
table model no validator runs (per the tests), so the stored row equals the
argument. -/
def RepoState.add (repo : RepoState) (channel : ChannelModel) :
    ChannelModel × RepoState :=
  (channel, ⟨repo.channels ++ [channel]⟩)

/-- ChannelRepository.update: raises ValueError when no row has the id,
otherwise overwrites every field of the matching row and returns it. -/
def RepoState.update (repo : RepoState) (channel : ChannelModel) :
    Except String (ChannelModel × RepoState) :=
  if repo.channels.any (fun c => c.id = channel.id) then
    .ok (channel,
      ⟨repo.channels.map (fun c => if c.id = channel.id then channel else c)⟩)
  else .error "Channel not found"

/-- ChannelRepository.delete: False when the id is absent, otherwise removes
the row. -/
def RepoState.delete (repo : RepoState) (channel_id : String) :
    Bool × RepoState :=
  if repo.channels.any (fun c => c.id = some channel_id) then
    (true, ⟨repo.channels.filter (fun c => !(c.id = some channel_id : Bool))⟩)
  else (false, repo)

/-
ChannelProcessor.create_channel_with_checks, which fails through FastAPI
HTTPException status codes rather than domain exceptions.
-/

/-- The HTTPException outcomes of create_channel_with_checks. -/
inductive HTTPError where
  | bad_request (detail : String)
  | conflict (detail : String)

/-- ChannelProcessor.create_channel_with_checks. -/
def create_channel_with_checks (channel : ChannelModel) (repo : RepoState) :
    (Except HTTPError ChannelModel) × RepoState :=
  match channel.id with
  | Option.none => (.error (.bad_request "Channel ID cannot be None."), repo)
  | some channel_id =>
    match repo.get_by_id channel_id with
    | some _ => (.error (.conflict "Channel already exists."), repo)
    | Option.none =>
      let (created, repo_after) := repo.add channel
      (.ok created, repo_after)

/-
ChannelServiceImpl (app.application.services.channel_service_impl).
The request payloads are dicts; ChannelData records which keys are present.
A field of type Option (Option _) distinguishes key-absent (outer none) from
key-present-with-None (some none). For id, absent and None collapse into
none: every use of the key goes through falsy-tolerant channel_data.get.
-/

/-- A channel creation or update payload dict. -/
structure ChannelData where
  id : Option String := none
  name : Option String := none
  description : Option (Option String) := none
  enabled : Option Bool := none
  source : Option SourceConfig := none
  filters : Option (Option (List FilterConfig)) := none
  transformers : Option (Option (List TransformerConfig)) := none
  destinations : Option (List DestinationConfig) := none

/-- Python str.strip(): drops leading and trailing whitespace. -/
def py_strip (s : String) : String :=
  String.mk
    (((s.data.dropWhile Char.isWhitespace).reverse.dropWhile Char.isWhitespace).reverse)

/-- ChannelModel(**channel_data): required fields name, source, destinations;
the rest take their pydantic defaults when absent. -/
def build_channel_model (data : ChannelData) : Except String ChannelModel :=
  match data.name, data.source, data.destinations with
  | some name, some source, some destinations =>
    .ok { id := data.id
        , name := name
        , description := data.description.getD Option.none
        , enabled := data.enabled.getD true
        , source := source
        , filters := data.filters.getD Option.none
        , transformers := data.transformers.getD Option.none
        , destinations := destinations }
  | _, _, _ => .error "field required"

/-- ChannelServiceImpl._validate_channel_creation_data: required keys checked
in order name, source, destinations; then the stripped name must be nonempty
and at most 100 characters; then destinations must be nonempty. -/
def validate_channel_creation_data (data : ChannelData) : Except ChannelError Unit :=
  if data.name.isNone then .error (.validation "name" "Field name is required")
  else if data.source.isNone then .error (.validation "source" "Field source is required")
  else if data.destinations.isNone then
    .error (.validation "destinations" "Field destinations is required")
  else
    let name := py_strip (data.name.getD "")
    if name = "" then .error (.validation "name" "Name cannot be empty")
    else if name.length > 100 then
      .error (.validation "name" "Name cannot exceed 100 characters")
    else if (data.destinations.getD []).isEmpty then
      .error (.validation "destinations" "At least one destination is required")
    else .ok ()

/-- ChannelServiceImpl._validate_channel_update_data: only the keys present in
the payload are checked. -/
def validate_channel_update_data (data : ChannelData) : Except ChannelError Unit :=
  match data.name with
  | some n =>
    if py_strip n = "" then .error (.validation "name" "Name cannot be empty")
    else if (py_strip n).length > 100 then
      .error (.validation "name" "Name cannot exceed 100 characters")
    else
      match data.destinations with
      | some ds =>
        if ds.isEmpty then
          .error (.validation "destinations" "At least one destination is required")
        else .ok ()
      | Option.none => .ok ()
  | Option.none =>
    match data.destinations with
    | some ds =>
      if ds.isEmpty then
        .error (.validation "destinations" "At least one destination is required")
      else .ok ()
    | Option.none => .ok ()

/-- ChannelServiceImpl.create_channel. fresh_id stands for str(uuid.uuid4()),
the id generated when the payload id is falsy (absent, None or empty). -/
def create_channel (repo : RepoState) (channel_data : ChannelData)
    (fresh_id : String) : (Except ChannelError ChannelModel) × RepoState :=
  match validate_channel_creation_data channel_data with
  | .error e => (.error e, repo)
  | .ok () =>
    let channel_data :=
      if channel_data.id.getD "" = "" then { channel_data with id := some fresh_id }
      else channel_data
    let channel_id := channel_data.id.getD ""
    match repo.get_by_id channel_id with
    | some _ => (.error (.already_exists channel_id), repo)
    | Option.none =>
      match build_channel_model channel_data with
      | .error e => (.error (.invalid_data e), repo)
      | .ok channel =>
        let (created, repo_after) := repo.add channel
        (.ok created, repo_after)

/-- ChannelServiceImpl.get_channel_by_id. -/
def get_channel_by_id (repo : RepoState) (channel_id : String) :
    Except ChannelError ChannelModel :=
  if channel_id = "" then .error (.invalid_data "Channel ID cannot be empty")
  else
    match repo.get_by_id channel_id with
    | Option.none => .error (.not_found channel_id)
    | some c => .ok c

/-- The merge in ChannelServiceImpl.update_channel: update_data is the dict
union of the model_dump of the existing record with the payload (payload keys
win), after which the id key is overwritten with the path channel_id. -/
def merge_update (existing : ChannelModel) (data : ChannelData)
    (channel_id : String) : ChannelModel :=
  { id := some channel_id
  , name := data.name.getD existing.name
  , description := data.description.getD existing.description
  , enabled := data.enabled.getD existing.enabled
  , source := data.source.getD existing.source
  , filters := data.filters.getD existing.filters
  , transformers := data.transformers.getD existing.transformers
  , destinations := data.destinations.getD existing.destinations }

/-- ChannelServiceImpl.update_channel. -/
def update_channel (repo : RepoState) (channel_id : String)
    (channel_data : ChannelData) : (Except ChannelError ChannelModel) × RepoState :=
  match get_channel_by_id repo channel_id with
  | .error e => (.error e, repo)
  | .ok existing_channel =>
    match validate_channel_update_data channel_data with
    | .error e => (.error e, repo)
    | .ok () =>
      let updated_channel := merge_update existing_channel channel_data channel_id
      match repo.update updated_channel with
      | .error e => (.error (.operation_failed e), repo)
      | .ok (result, repo_after) => (.ok result, repo_after)

/-- ChannelServiceImpl.enable_channel: an already enabled channel is returned
as is, with no repository update. -/
def enable_channel (repo : RepoState) (channel_id : String) :
    (Except ChannelError ChannelModel) × RepoState :=
  match get_channel_by_id repo channel_id with
  | .error e => (.error e, repo)
  | .ok channel =>
    if channel.enabled then (.ok channel, repo)
    else
      let updated_channel := { channel with enabled := true }
      match repo.update updated_channel with
      | .error e => (.error (.operation_failed e), repo)
      | .ok (result, repo_after) => (.ok result, repo_after)

/-- ChannelServiceImpl.disable_channel: an already disabled channel is
returned as is, with no repository update. -/
def disable_channel (repo : RepoState) (channel_id : String) :
    (Except ChannelError ChannelModel) × RepoState :=
  match get_channel_by_id repo channel_id with
  | .error e => (.error e, repo)
  | .ok channel =>
    if !channel.enabled then (.ok channel, repo)
    else
      let updated_channel := { channel with enabled := false }
      match repo.update updated_channel with
      | .error e => (.error (.operation_failed e), repo)
      | .ok (result, repo_after) => (.ok result, repo_after)

/-
Concrete inputs used by the claims below.
-/

/-- An exec environment in which every script returns its local variables
unchanged: it neither raises, nor sets _passed or _transformed_message, nor
rebinds message. -/
def exec_trivial : Exec := fun _ lv => .ok lv

/-- An exec environment in which every script raises with text boom. -/
def exec_raise : Exec := fun _ _ => .raised "boom"

/-- Exec environment for observing what a transformer stage hands onward:
script probe raises exactly when its message local is not the string m, and
every other script (in particular pass) returns its locals unchanged. -/
def exec_probe : Exec := fun script lv =>
  if script = "probe" then
    match RawDict.get lv "message" with
    | some (.str "m") => .ok lv
    | _ => .raised "message is not m"
  else .ok lv

/-- A channel with no filters and no transformers and one HTTP destination. -/
def channel_plain : ChannelModel :=
  { id := some "c1", name := "c1", source := .http "/in" "POST",
    destinations := [.http "http://out" "POST" Option.none] }

/-- C1. The claim is refuted by the code: process_message assigns
current_message = filter_result after the is-not-None early return, and again
current_message = transformer_result, so both assignments store None. On a
channel with no filters and no transformers and input message "hello", the
success result carries processed_message = None, not the original message,
and None also is what reaches destination dispatch. -/
theorem processed_message_clobbered_to_none :
    RawDict.get (process_message exec_trivial channel_plain (.str "hello")
        (fun _ => Option.none)) "processed_message" = some PyVal.none
    ∧ RawDict.get (process_message exec_trivial channel_plain (.str "hello")
        (fun _ => Option.none)) "status" = some (.str "success")
    ∧ PyVal.none ≠ PyVal.str "hello" :=
  ⟨rfl, rfl, nofun⟩

/-- C2. The claim is refuted by the code: local_vars pre-binds
_transformed_message = None, so the membership test that guards the warning
branch is always true, and a transformer script that assigns nothing makes
the pipeline continue with message = None instead of the unchanged message
(and the warning is never recorded). Stage pass assigns nothing; the probe
stage after it raises because it sees None rather than the original string m,
while the probe run directly on the preserved message m raises nothing. -/
theorem transformer_unset_output_clobbers_message :
    apply_transformers_loop exec_probe
        [.python_script "pass", .python_script "probe"] (.str "m")
      = some (transformer_error_result "message is not m")
    ∧ apply_transformers_loop exec_probe [.python_script "probe"] (.str "m")
      = Option.none
    ∧ apply_transformers_loop exec_probe
        [.python_script "pass", .python_script "probe"] (.str "m")
      = apply_transformers_loop exec_probe [.python_script "probe"] PyVal.none :=
  ⟨rfl, rfl, rfl⟩

/-- A channel whose only filter runs script f. -/
def channel_one_filter : ChannelModel :=
  { id := some "c4", name := "c4", source := .http "/in" "POST",
    filters := some [.python_script "f"],
    transformers := some [.python_script "t"],
    destinations := [.http "http://out" "POST" Option.none] }

/-- C4. When a filter script finishes with _passed absent or falsy (it starts
as False, so leaving it unset keeps it falsy), _apply_filters returns the
filtered dict at once, process_message returns that dict for every remaining
filter list, every transformer list and every destination list, and its
status is exactly filtered. -/
theorem filter_unset_or_false_yields_filtered
    (ex : Exec) (script : String) (post : List FilterConfig) (m : PyVal)
    (channel : ChannelModel) (raises : Nat → Option String) (lv : RawDict)
    (hok : ex script [("message", m), ("_passed", .bool false)] = .ok lv)
    (hfail : PyVal.truthy ((RawDict.get lv "_passed").getD (.bool false)) = false)
    (hch : channel.filters = some (.python_script script :: post)) :
    process_message ex channel m raises = filtered_result
    ∧ apply_filters_loop ex (.python_script script :: post) m = some filtered_result
    ∧ RawDict.get filtered_result "status" = some (.str "filtered") := by
  have h2 : apply_filters_loop ex (.python_script script :: post) m
      = some filtered_result := by
    simp [apply_filters_loop, hok, hfail]
  refine ⟨?_, h2, rfl⟩
  simp [process_message, apply_filters, hch, h2]

/-- C4 witness: with the exec environment that leaves locals untouched, the
concrete one-filter channel filters out the message x. -/
theorem filter_unset_or_false_yields_filtered_witness :
    process_message exec_trivial channel_one_filter (.str "x")
        (fun _ => Option.none) = filtered_result :=
  (filter_unset_or_false_yields_filtered exec_trivial "f" [] (.str "x")
    channel_one_filter (fun _ => Option.none)
    [("message", .str "x"), ("_passed", .bool false)] rfl rfl rfl).1

/-- A channel with no filters whose only transformer runs script t. -/
def channel_one_transformer : ChannelModel :=
  { id := some "c5", name := "c5", source := .http "/in" "POST",
    transformers := some [.python_script "t"],
    destinations := [.http "http://out" "POST" Option.none] }

/-- C5. A raising filter or transformer script makes process_message return
the error dict carrying the exception text, for every remaining stage list
and destination list (no later stage runs), and process_message itself is a
total function of its inputs: the exception is captured, not re-raised. -/
theorem script_exception_yields_error_result
    (ex : Exec) (channel : ChannelModel) (m : PyVal)
    (raises : Nat → Option String) (e : String) (fscript tscript : String)
    (fpost : List FilterConfig) (tpost : List TransformerConfig) :
    ((∀ lv, ex fscript lv = .raised e) →
      channel.filters = some (.python_script fscript :: fpost) →
      process_message ex channel m raises = filter_error_result e)
    ∧ ((∀ lv, ex tscript lv = .raised e) →
      channel.filters = Option.none →
      channel.transformers = some (.python_script tscript :: tpost) →
      process_message ex channel m raises = transformer_error_result e) := by
  constructor
  · intro hraise hch
    have h2 : apply_filters_loop ex (.python_script fscript :: fpost) m
        = some (filter_error_result e) := by
      simp [apply_filters_loop, hraise]
    simp [process_message, apply_filters, hch, h2]
  · intro hraise hf hch
    have h2 : apply_transformers_loop ex (.python_script tscript :: tpost) PyVal.none
        = some (transformer_error_result e) := by
      simp [apply_transformers_loop, hraise]
    simp [process_message, apply_filters, apply_transformers, hch, hf, h2]

/-- C5 witness: under the always-raising exec environment, a channel whose
first filter raises returns the filter error dict, and a filterless channel
whose first transformer raises returns the transformer error dict. -/
theorem script_exception_yields_error_result_witness :
    process_message exec_raise channel_one_filter (.str "x")
        (fun _ => Option.none) = filter_error_result "boom"
    ∧ process_message exec_raise channel_one_transformer (.str "x")
        (fun _ => Option.none) = transformer_error_result "boom" :=
  ⟨(script_exception_yields_error_result exec_raise channel_one_filter (.str "x")
      (fun _ => Option.none) "boom" "f" "t" [] []).1 (fun _ => rfl) rfl,
   (script_exception_yields_error_result exec_raise channel_one_transformer (.str "x")
      (fun _ => Option.none) "boom" "f" "t" [] []).2 (fun _ => rfl) rfl rfl⟩

/-- Dispatch always yields one outcome entry per destination. -/
theorem dispatch_loop_length (raises : Nat → Option String) (i : Nat)
    (ds : List DestinationConfig) (m : PyVal) :
    (dispatch_loop raises i ds m).length = ds.length := by
  induction ds generalizing i with
  | nil => rfl
  | cons d rest ih => simp [dispatch_loop, ih]

/-- The entry at position j of the dispatch output is determined by the
destination at position j alone: an error entry when that send raises, and
the pure send outcome otherwise. -/
theorem dispatch_loop_getD (raises : Nat → Option String) (i j : Nat)
    (ds : List DestinationConfig) (m : PyVal) (hj : j < ds.length) :
    (dispatch_loop raises i ds m).getD j [] =
      match raises (i + j) with
      | some e =>
        [("destination_type", get_destination_type (ds.getD j (.raw []))),
         ("status", .str "error"), ("error", .str e)]
      | Option.none => send_to_single_destination (ds.getD j (.raw [])) m := by
  induction ds generalizing i j with
  | nil => simp at hj
  | cons d rest ih =>
    cases j with
    | zero => simp [dispatch_loop]
    | succ j =>
      have hj2 : j < rest.length := by simpa using hj
      have hidx : i + (j + 1) = (i + 1) + j := by omega
      simpa [dispatch_loop, hidx] using ih (i + 1) j hj2

/-- Every fallback outcome has status sent or skipped. -/
theorem send_fallback_status (d : RawDict) (m : PyVal) :
    RawDict.get (send_to_fallback_destination d m) "status" = some (.str "sent")
    ∨ RawDict.get (send_to_fallback_destination d m) "status" = some (.str "skipped") := by
  unfold send_to_fallback_destination
  split
  · split_ifs <;> first | exact Or.inl rfl | exact Or.inr rfl
  · exact Or.inr rfl

/-- Every pure send outcome has status sent or skipped. -/
theorem send_status_sent_or_skipped (cfg : DestinationConfig) (m : PyVal) :
    RawDict.get (send_to_single_destination cfg m) "status" = some (.str "sent")
    ∨ RawDict.get (send_to_single_destination cfg m) "status" = some (.str "skipped") := by
  cases cfg with
  | http url method headers => exact Or.inl rfl
  | tcp host port use_mllp => exact Or.inl rfl
  | raw d => exact send_fallback_status d m

/-- C6. Dispatch returns exactly one entry per destination, in configured
order (entry j is a function of destination j alone); when the send to
destination i raises, entry i is the error entry carrying the text, every
other entry is the pure send outcome with status sent or skipped, and the
whole dispatch is a total function: the exception never escapes. -/
theorem dispatch_isolates_failures
    (ds : List DestinationConfig) (m : PyVal) (raises : Nat → Option String)
    (i : Nat) (e : String) (hi : i < ds.length) (hre : raises i = some e)
    (hothers : ∀ j, j ≠ i → raises j = Option.none) :
    (dispatch_to_destinations ds m raises).length = ds.length
    ∧ RawDict.get ((dispatch_to_destinations ds m raises).getD i []) "status"
        = some (.str "error")
    ∧ RawDict.get ((dispatch_to_destinations ds m raises).getD i []) "error"
        = some (.str e)
    ∧ (∀ j, j < ds.length → j ≠ i →
        (dispatch_to_destinations ds m raises).getD j []
          = send_to_single_destination (ds.getD j (.raw [])) m)
    ∧ (∀ j, j < ds.length → j ≠ i →
        RawDict.get ((dispatch_to_destinations ds m raises).getD j []) "status"
            = some (.str "sent")
        ∨ RawDict.get ((dispatch_to_destinations ds m raises).getD j []) "status"
            = some (.str "skipped")) := by
  have hd : dispatch_to_destinations ds m raises = dispatch_loop raises 0 ds m := rfl
  have hent_i := dispatch_loop_getD raises 0 i ds m hi
  simp only [Nat.zero_add, hre] at hent_i
  have hothersE : ∀ j, j < ds.length → j ≠ i →
      (dispatch_to_destinations ds m raises).getD j []
        = send_to_single_destination (ds.getD j (.raw [])) m := by
    intro j hj hne
    have h := dispatch_loop_getD raises 0 j ds m hj
    simp only [Nat.zero_add, hothers j hne] at h
    rw [hd, h]
  refine ⟨hd ▸ dispatch_loop_length raises 0 ds m, ?_, ?_, hothersE, ?_⟩
  · rw [hd, hent_i]; rfl
  · rw [hd, hent_i]; rfl
  · intro j hj hne
    rw [hothersE j hj hne]
    exact send_status_sent_or_skipped _ m

/-- Destination list for the C6 witness. -/
def dests_two : List DestinationConfig :=
  [.http "http://a" "POST" Option.none, .tcp "b" 9 false]

/-- Raise pattern for the C6 witness: only the send at index 1 raises. -/
def raises_at_one : Nat → Option String :=
  fun j => if j = 1 then some "boom" else Option.none

/-- C6 witness: on a two-destination list whose second send raises, dispatch
returns two entries, entry 1 is the error entry and entry 0 was sent. -/
theorem dispatch_isolates_failures_witness :
    (dispatch_to_destinations dests_two (.str "x") raises_at_one).length = 2
    ∧ RawDict.get ((dispatch_to_destinations dests_two (.str "x") raises_at_one).getD 1 [])
        "status" = some (.str "error")
    ∧ RawDict.get ((dispatch_to_destinations dests_two (.str "x") raises_at_one).getD 1 [])
        "error" = some (.str "boom")
    ∧ (dispatch_to_destinations dests_two (.str "x") raises_at_one).getD 0 []
        = send_to_single_destination (dests_two.getD 0 (.raw [])) (.str "x") :=
  have h := dispatch_isolates_failures dests_two (.str "x") raises_at_one 1 "boom"
    (by decide) rfl (by intro j hj; simp [raises_at_one, hj])
  ⟨h.1, h.2.1, h.2.2.1, h.2.2.2.1 0 (by decide) (by decide)⟩

/-- A destination entry whose type tag ftp is recognised nowhere. -/
def unknown_destination_dict : RawDict :=
  [("type", .str "ftp"), ("host", .str "archive.example")]

/-- A channel whose only destination carries the unknown tag ftp. -/
def channel_unknown_dest : ChannelModel :=
  { id := some "c3", name := "c3", source := .http "/in" "POST",
    destinations := [.raw unknown_destination_dict] }

/-- C3 counterexample: constructing a channel whose destination has an
unknown type discriminant does not fail with any error, configuration or
otherwise; validate_json_fields returns the channel unchanged, with the entry
still the untyped raw dict. -/
theorem unknown_tag_accepted_at_construction :
    validate_json_fields channel_unknown_dest = .ok channel_unknown_dest
    ∧ channel_unknown_dest.destinations
        = [DestinationConfig.raw unknown_destination_dict] :=
  ⟨rfl, rfl⟩

/-- C3 amended: construction-time conversion resolves only the recognised
tags (http and tcp for sources and destinations, python_script for filters
and transformers); an entry whose tag is missing or unknown is silently kept
as an untyped raw value with no error, and is dealt with at use time: the
filter and transformer loops skip it, and dispatch sends it to the fallback,
which gives it a skipped outcome. -/
theorem unknown_tags_kept_untyped (d : RawDict) (ex : Exec) (m : PyVal)
    (h : ∀ s, RawDict.get d "type" = some (.str s) →
      s ≠ "http" ∧ s ≠ "tcp" ∧ s ≠ "python_script") :
    convert_source (.raw d) = .ok (.raw d)
    ∧ convert_filter (.raw d) = .ok (.raw d)
    ∧ convert_transformer (.raw d) = .ok (.raw d)
    ∧ convert_destination (.raw d) = .ok (.raw d)
    ∧ (∀ rest, apply_filters_loop ex (.raw d :: rest) m
        = apply_filters_loop ex rest m)
    ∧ (∀ rest, apply_transformers_loop ex (.raw d :: rest) m
        = apply_transformers_loop ex rest m)
    ∧ RawDict.get (send_to_single_destination (.raw d) m) "status"
        = some (.str "skipped") := by
  refine ⟨?_, ?_, ?_, ?_, fun rest => rfl, fun rest => rfl, ?_⟩
  · rcases hv : RawDict.get d "type" with _ | (_ | b | n | s | xs | es) <;>
      simp [convert_source, hv]
    obtain ⟨h1, h2, _⟩ := h s hv
    simp [h1, h2]
  · rcases hv : RawDict.get d "type" with _ | (_ | b | n | s | xs | es) <;>
      simp [convert_filter, hv]
    obtain ⟨_, _, h3⟩ := h s hv
    simp [h3]
  · rcases hv : RawDict.get d "type" with _ | (_ | b | n | s | xs | es) <;>
      simp [convert_transformer, hv]
    obtain ⟨_, _, h3⟩ := h s hv
    simp [h3]
  · rcases hv : RawDict.get d "type" with _ | (_ | b | n | s | xs | es) <;>
      simp [convert_destination, hv]
    obtain ⟨h1, h2, _⟩ := h s hv
    simp [h1, h2]
  · rcases hv : RawDict.get d "type" with _ | (_ | b | n | s | xs | es) <;>
      simp only [send_to_single_destination, send_to_fallback_destination, hv,
        Option.getD_some, Option.getD_none] <;> try rfl
    obtain ⟨h1, h2, _⟩ := h s hv
    simp only [if_neg h1, if_neg h2]
    rfl

/-- C3 amended-claim witness at the concrete ftp destination entry. -/
theorem unknown_tags_kept_untyped_witness :
    convert_destination (.raw unknown_destination_dict)
        = .ok (.raw unknown_destination_dict)
    ∧ RawDict.get (send_to_single_destination (.raw unknown_destination_dict)
        (.str "x")) "status" = some (.str "skipped") :=
  have h := unknown_tags_kept_untyped unknown_destination_dict exec_trivial
    (.str "x") (by intro s hs; simp [unknown_destination_dict, RawDict.get] at hs
                   subst hs; refine ⟨by decide, by decide, by decide⟩)
  ⟨h.2.2.2.1, h.2.2.2.2.2.2⟩

/-- C7. A create request carrying an id that is already stored fails before
any write: the service raises ChannelAlreadyExistsError and the processor
variant raises the 409 conflict HTTPException, and in both cases the store
comes back exactly as it was (no insert, no update of any record). -/
theorem create_duplicate_id_rejected
    (repo : RepoState) (data : ChannelData) (fresh_id : String) (cid : String)
    (c0 : ChannelModel) (channel : ChannelModel)
    (hvalid : validate_channel_creation_data data = .ok ())
    (hid : data.id = some cid) (hcid : cid ≠ "")
    (hex : repo.get_by_id cid = some c0) (hchid : channel.id = some cid) :
    create_channel repo data fresh_id = (.error (.already_exists cid), repo)
    ∧ create_channel_with_checks channel repo
        = (.error (.conflict "Channel already exists."), repo) := by
  constructor
  · simp [create_channel, hvalid, hid, hcid, hex]
  · simp [create_channel_with_checks, hchid, hex]

/-- A stored enabled channel with id dup, for the C7 witness. -/
def channel_dup : ChannelModel :=
  { id := some "dup", name := "dup", source := .http "/in" "POST",
    destinations := [.http "http://out" "POST" Option.none] }

/-- A valid creation payload reusing the stored id dup. -/
def payload_dup : ChannelData :=
  { id := some "dup", name := some "New", source := some (.http "/p" "POST"),
    destinations := some [.http "http://x" "POST" Option.none] }

/-- C7 witness: creating over the stored id dup yields AlreadyExists or the
409 conflict, and the store ⟨[channel_dup]⟩ is returned unchanged. -/
theorem create_duplicate_id_rejected_witness :
    create_channel ⟨[channel_dup]⟩ payload_dup "fresh"
      = (.error (.already_exists "dup"), ⟨[channel_dup]⟩)
    ∧ create_channel_with_checks channel_dup ⟨[channel_dup]⟩
      = (.error (.conflict "Channel already exists."), ⟨[channel_dup]⟩) :=
  create_duplicate_id_rejected ⟨[channel_dup]⟩ payload_dup "fresh" "dup"
    channel_dup channel_dup rfl rfl (by decide) rfl rfl

/-- C8. Enabling a channel that is already enabled, and disabling one that is
already disabled, return the channel as is and leave the store untouched: the
repository update step is never reached. -/
theorem enable_disable_idempotent
    (repo : RepoState) (cid : String) (c : ChannelModel)
    (hcid : cid ≠ "") (hfind : repo.get_by_id cid = some c) :
    (c.enabled = true → enable_channel repo cid = (.ok c, repo))
    ∧ (c.enabled = false → disable_channel repo cid = (.ok c, repo)) := by
  constructor
  · intro hen
    simp [enable_channel, get_channel_by_id, hcid, hfind, hen]
  · intro hen
    simp [disable_channel, get_channel_by_id, hcid, hfind, hen]

/-- A stored disabled channel with id off, for the C8 witness. -/
def channel_off : ChannelModel :=
  { id := some "off", name := "off", enabled := false,
    source := .http "/in" "POST",
    destinations := [.http "http://out" "POST" Option.none] }

/-- C8 witness: enable on the already-enabled channel dup and disable on the
already-disabled channel off both return the channel and the unchanged
two-channel store. -/
theorem enable_disable_idempotent_witness :
    enable_channel ⟨[channel_dup, channel_off]⟩ "dup"
      = (.ok channel_dup, ⟨[channel_dup, channel_off]⟩)
    ∧ disable_channel ⟨[channel_dup, channel_off]⟩ "off"
      = (.ok channel_off, ⟨[channel_dup, channel_off]⟩) :=
  ⟨(enable_disable_idempotent ⟨[channel_dup, channel_off]⟩ "dup" channel_dup
      (by decide) rfl).1 rfl,
   (enable_disable_idempotent ⟨[channel_dup, channel_off]⟩ "off" channel_off
      (by decide) rfl).2 rfl⟩

/-- A channel found by get_by_id carries the looked-up id. -/
theorem get_by_id_id (repo : RepoState) (cid : String) (c : ChannelModel)
    (h : repo.get_by_id cid = some c) : c.id = some cid := by
  have hp := List.find?_some h
  simpa using hp

/-- A channel found by get_by_id is stored. -/
theorem get_by_id_mem (repo : RepoState) (cid : String) (c : ChannelModel)
    (h : repo.get_by_id cid = some c) : c ∈ repo.channels :=
  List.mem_of_find?_eq_some h

/-- Repository update succeeds whenever some stored row carries the id. -/
theorem repo_update_of_stored_id (repo : RepoState) (existing channel : ChannelModel)
    (hmem : existing ∈ repo.channels) (hid : existing.id = channel.id) :
    repo.update channel
      = .ok (channel,
          ⟨repo.channels.map (fun c => if c.id = channel.id then channel else c)⟩) := by
  unfold RepoState.update
  rw [if_pos]
  exact List.any_eq_true.mpr ⟨existing, hmem, by simp [hid]⟩

/-- C9. For an existing record and a validated partial payload, update_channel
returns exactly the merge of the record with the payload: the returned id
equals the id of the existing record even when the payload carries a
different id value, and every field whose key is absent from the payload
keeps its stored value. -/
theorem update_merges_and_preserves_id
    (repo : RepoState) (cid : String) (data : ChannelData) (existing : ChannelModel)
    (hcid : cid ≠ "") (hfind : repo.get_by_id cid = some existing)
    (hvalid : validate_channel_update_data data = .ok ()) :
    (update_channel repo cid data).1 = .ok (merge_update existing data cid)
    ∧ (merge_update existing data cid).id = existing.id
    ∧ (data.name = Option.none →
        (merge_update existing data cid).name = existing.name)
    ∧ (data.description = Option.none →
        (merge_update existing data cid).description = existing.description)
    ∧ (data.enabled = Option.none →
        (merge_update existing data cid).enabled = existing.enabled)
    ∧ (data.source = Option.none →
        (merge_update existing data cid).source = existing.source)
    ∧ (data.filters = Option.none →
        (merge_update existing data cid).filters = existing.filters)
    ∧ (data.transformers = Option.none →
        (merge_update existing data cid).transformers = existing.transformers)
    ∧ (data.destinations = Option.none →
        (merge_update existing data cid).destinations = existing.destinations) := by
  have hid : existing.id = some cid := get_by_id_id repo cid existing hfind
  have hupd := repo_update_of_stored_id repo existing
    (merge_update existing data cid) (get_by_id_mem repo cid existing hfind)
    (by simp [merge_update, hid])
  refine ⟨?_, by simp [merge_update, hid], fun h => by simp [merge_update, h],
    fun h => by simp [merge_update, h], fun h => by simp [merge_update, h],
    fun h => by simp [merge_update, h], fun h => by simp [merge_update, h],
    fun h => by simp [merge_update, h], fun h => by simp [merge_update, h]⟩
  simp [update_channel, get_channel_by_id, hcid, hfind, hvalid, hupd]

/-- C9 witness: a payload renaming the channel and smuggling a different id
leaves the id dup and every unsupplied field (description, enabled, source,
filters, transformers, destinations) unchanged. -/
theorem update_merges_and_preserves_id_witness :
    (update_channel ⟨[channel_dup]⟩ "dup"
        { id := some "other", name := some "Renamed" }).1
      = .ok (merge_update channel_dup
          { id := some "other", name := some "Renamed" } "dup")
    ∧ (merge_update channel_dup
        { id := some "other", name := some "Renamed" } "dup").id
      = channel_dup.id
    ∧ (merge_update channel_dup
        { id := some "other", name := some "Renamed" } "dup").enabled
      = channel_dup.enabled :=
  have h := update_merges_and_preserves_id ⟨[channel_dup]⟩ "dup"
    { id := some "other", name := some "Renamed" } channel_dup
    (by decide) rfl rfl
  ⟨h.1, h.2.1, h.2.2.2.2.1 rfl⟩

/-- C10. When the payload id key is absent or holds the falsy empty string,
create_channel replaces it with the generated uuid and proceeds: validation
does not reject the payload, the stored channel carries the generated id, and
since uuid4 strings are never empty no channel is ever stored with an
empty-string id through this operation. -/
theorem create_generates_id_when_missing_or_empty
    (repo : RepoState) (data : ChannelData) (fresh_id : String)
    (hvalid : validate_channel_creation_data data = .ok ())
    (hfalsy : data.id = Option.none ∨ data.id = some "")
    (hfresh : fresh_id ≠ "")
    (hfree : repo.get_by_id fresh_id = Option.none) :
    ∃ c, create_channel repo data fresh_id = (.ok c, ⟨repo.channels ++ [c]⟩)
      ∧ c.id = some fresh_id ∧ c.id ≠ some "" := by
  rcases hname : data.name with _ | name
  · exact absurd hvalid (by simp [validate_channel_creation_data, hname])
  rcases hsource : data.source with _ | source
  · exact absurd hvalid (by simp [validate_channel_creation_data, hname, hsource])
  rcases hdest : data.destinations with _ | dests
  · exact absurd hvalid
      (by simp [validate_channel_creation_data, hname, hsource, hdest])
  refine ⟨{ id := some fresh_id, name := name,
            description := data.description.getD Option.none,
            enabled := data.enabled.getD true, source := source,
            filters := data.filters.getD Option.none,
            transformers := data.transformers.getD Option.none,
            destinations := dests }, ?_, rfl, by simp [hfresh]⟩
  rcases hfalsy with hf | hf <;>
    simp [create_channel, hvalid, build_channel_model, RepoState.add,
      hname, hsource, hdest, hf, hfree]

/-- A valid creation payload with no id key. -/
def payload_noid : ChannelData :=
  { name := some "N", source := some (.http "/p" "POST"),
    destinations := some [.http "http://x" "POST" Option.none] }

/-- C10 witness: with an absent id and with an empty-string id, creation into
the empty store proceeds under the generated id uuid-1. -/
theorem create_generates_id_witness :
    (∃ c, create_channel ⟨[]⟩ payload_noid "uuid-1"
        = (.ok c, ⟨[] ++ [c]⟩) ∧ c.id = some "uuid-1" ∧ c.id ≠ some "")
    ∧ (∃ c, create_channel ⟨[]⟩ { payload_noid with id := some "" } "uuid-1"
        = (.ok c, ⟨[] ++ [c]⟩) ∧ c.id = some "uuid-1" ∧ c.id ≠ some "") :=
  ⟨create_generates_id_when_missing_or_empty ⟨[]⟩ payload_noid "uuid-1"
      rfl (Or.inl rfl) (by decide) rfl,
   create_generates_id_when_missing_or_empty ⟨[]⟩
      { payload_noid with id := some "" } "uuid-1"
      rfl (Or.inr rfl) (by decide) rfl⟩

end LingShu
